import Mathlib

/-
Verification of the data transformation and analytics pipeline of the
credit-risk analytics dashboard: synthetic record generation, feature
derivation, income bracketing, multi-predicate filtering, KPI aggregation,
histogram binning and Pearson correlation.

Numbers are modelled as exact rationals (ℚ); JavaScript `Math.round`,
`toFixed`, truthiness tests and array indexing are modelled explicitly
below.  Division by zero in ℚ yields 0; every place where the JavaScript
semantics of a zero denominator differs (NaN / Infinity) and matters to a
property is modelled explicitly with Option.
-/

namespace CreditRisk

/-- One loan application, after the shape of the HomeCreditRecord
interface: raw fields first, then the optional derived fields populated
by preprocessing. -/
structure HomeCreditRecord where
  SK_ID_CURR : ℕ
  TARGET : ℕ
  CODE_GENDER : String
  DAYS_BIRTH : ℤ
  DAYS_EMPLOYED : ℤ
  NAME_FAMILY_STATUS : String
  CNT_CHILDREN : ℕ
  CNT_FAM_MEMBERS : ℕ
  NAME_EDUCATION_TYPE : String
  OCCUPATION_TYPE : String
  NAME_HOUSING_TYPE : String
  AMT_INCOME_TOTAL : ℚ
  AMT_CREDIT : ℚ
  AMT_ANNUITY : ℚ
  AMT_GOODS_PRICE : ℚ
  NAME_CONTRACT_TYPE : String
  REGION_RATING_CLIENT : ℕ
  FLAG_OWN_CAR : String
  FLAG_OWN_REALTY : String
  AGE_YEARS : Option ℚ := none
  EMPLOYMENT_YEARS : Option ℚ := none
  DTI : Option ℚ := none
  LOAN_TO_INCOME : Option ℚ := none
  ANNUITY_TO_CREDIT : Option ℚ := none
  INCOME_BRACKET : Option String := none
deriving DecidableEq

/-- The filter specification, after the FilterState interface. -/
structure FilterState where
  gender : List String
  education : List String
  familyStatus : List String
  housingType : List String
  ageRange : ℚ × ℚ
  incomeBracket : String
  employmentRange : ℚ × ℚ
deriving DecidableEq

/-- JavaScript Math.round: round half toward positive infinity. -/
def jround (q : ℚ) : ℤ := ⌊q + 1/2⌋

/-- JavaScript Math.floor clamped into ℕ, used for array indices; all
indices produced by the code are nonnegative. -/
def jfloorNat (q : ℚ) : ℕ := (⌊q⌋).toNat

/-- JavaScript Number(x.toFixed(d)): round to d decimal digits (ties go
to the larger candidate, per the ECMAScript description of toFixed). -/
def toFixedQ (d : ℕ) (q : ℚ) : ℚ := ((⌊q * 10 ^ d + 1/2⌋ : ℚ)) / 10 ^ d

/-- JavaScript truthiness of a possibly-undefined number: undefined and 0
are falsy, every other number is truthy. -/
def jtruthy (x : Option ℚ) : Bool :=
  match x with
  | none => false
  | some v => decide (v ≠ 0)

/-- JavaScript `x <= q` where q may be undefined (a comparison with
undefined is false). -/
def jle (x : ℚ) (q : Option ℚ) : Bool :=
  match q with
  | none => false
  | some v => decide (x ≤ v)

/-- JavaScript `x >= q` where q may be undefined. -/
def jge (x : ℚ) (q : Option ℚ) : Bool :=
  match q with
  | none => false
  | some v => decide (v ≤ x)

/-- Ascending stable sort, the effect of Array.prototype.sort with the
comparator (a, b) => a - b. -/
def sortAsc (l : List ℚ) : List ℚ := List.insertionSort (· ≤ ·) l

/-- mean(values): arithmetic mean, null for empty input. -/
def mean (values : List ℚ) : Option ℚ :=
  if values.length = 0 then none
  else some ((values.foldl (· + ·) 0) / (values.length : ℚ))

/-- median(values): sort ascending, middle element for odd length,
average of the two middle elements for even length, null for empty
input. -/
def median (values : List ℚ) : Option ℚ :=
  if values.length = 0 then none
  else
    let sorted := sortAsc values
    let mid := sorted.length / 2
    if sorted.length % 2 = 0 then
      some ((sorted.getD (mid - 1) 0 + sorted.getD mid 0) / 2)
    else
      some (sorted.getD mid 0)

/-- The income-bracket lookup used by the filter (bracketMap in the
source); an unknown key yields undefined. -/
def bracketMap (s : String) : Option String :=
  if s = "low" then some "Low"
  else if s = "mid" then some "Mid"
  else if s = "high" then some "High"
  else none

/-- Gender predicate of applyFilters: reject when the list is non-empty
and does not contain the record's gender. -/
def genderPass (f : FilterState) (r : HomeCreditRecord) : Bool :=
  if f.gender.length > 0 && !(f.gender.contains r.CODE_GENDER) then false else true

/-- Education predicate of applyFilters. -/
def educationPass (f : FilterState) (r : HomeCreditRecord) : Bool :=
  if f.education.length > 0 && !(f.education.contains r.NAME_EDUCATION_TYPE) then false else true

/-- Family-status predicate of applyFilters. -/
def familyStatusPass (f : FilterState) (r : HomeCreditRecord) : Bool :=
  if f.familyStatus.length > 0 && !(f.familyStatus.contains r.NAME_FAMILY_STATUS) then false
  else true

/-- Housing-type predicate of applyFilters. -/
def housingTypePass (f : FilterState) (r : HomeCreditRecord) : Bool :=
  if f.housingType.length > 0 && !(f.housingType.contains r.NAME_HOUSING_TYPE) then false
  else true

/-- Age-range predicate of applyFilters: the source guards the range test
with the truthiness of record.AGE_YEARS, so an absent (or zero) derived
age passes. -/
def agePass (f : FilterState) (r : HomeCreditRecord) : Bool :=
  if jtruthy r.AGE_YEARS &&
      (decide (r.AGE_YEARS.getD 0 < f.ageRange.1) || decide (f.ageRange.2 < r.AGE_YEARS.getD 0))
  then false else true

/-- Income-bracket predicate of applyFilters: "all" means no constraint,
otherwise the record's bracket must equal the mapped bracket name. -/
def incomeBracketPass (f : FilterState) (r : HomeCreditRecord) : Bool :=
  if f.incomeBracket ≠ "all" then
    if r.INCOME_BRACKET ≠ bracketMap f.incomeBracket then false else true
  else true

/-- Employment-range predicate of applyFilters: guarded by the truthiness
of record.EMPLOYMENT_YEARS, so zero or absent employment years pass. -/
def employmentPass (f : FilterState) (r : HomeCreditRecord) : Bool :=
  if jtruthy r.EMPLOYMENT_YEARS &&
      (decide (r.EMPLOYMENT_YEARS.getD 0 < f.employmentRange.1) ||
        decide (f.employmentRange.2 < r.EMPLOYMENT_YEARS.getD 0))
  then false else true

/-- The conjunction of the seven predicate blocks of applyFilters, in
source order (each block is an early `return false`). -/
def recordPass (f : FilterState) (r : HomeCreditRecord) : Bool :=
  genderPass f r && educationPass f r && familyStatusPass f r && housingTypePass f r &&
    agePass f r && incomeBracketPass f r && employmentPass f r

/-- applyFilters(data, filters): keep the records passing every predicate,
preserving order. -/
def applyFilters (data : List HomeCreditRecord) (f : FilterState) : List HomeCreditRecord :=
  data.filter (recordPass f)

/-- The per-record body of preprocessData: derive age and employment in
years, and the three financial ratios.  In ℚ a zero income or credit makes
the ratio 0 where JavaScript would produce Infinity/NaN; no claim below
depends on the ratio value at a zero denominator. -/
def preprocessRecord (r : HomeCreditRecord) : HomeCreditRecord :=
  let ageYears : ℚ := -(r.DAYS_BIRTH : ℚ) / 365.25
  let employmentYears : ℚ :=
    if r.DAYS_EMPLOYED = 365243 then 0 else -(r.DAYS_EMPLOYED : ℚ) / 365.25
  let dti : ℚ := r.AMT_ANNUITY / r.AMT_INCOME_TOTAL
  let lti : ℚ := r.AMT_CREDIT / r.AMT_INCOME_TOTAL
  let annuityToCredit : ℚ := r.AMT_ANNUITY / r.AMT_CREDIT
  { r with
    AGE_YEARS := some ((jround (ageYears * 10) : ℚ) / 10)
    EMPLOYMENT_YEARS := some (max 0 ((jround (employmentYears * 10) : ℚ) / 10))
    DTI := some ((jround (dti * 1000) : ℚ) / 1000)
    LOAN_TO_INCOME := some ((jround (lti * 100) : ℚ) / 100)
    ANNUITY_TO_CREDIT := some ((jround (annuityToCredit * 1000) : ℚ) / 1000) }

/-- preprocessData(records): map the derivation over the collection. -/
def preprocessData (records : List HomeCreditRecord) : List HomeCreditRecord :=
  records.map preprocessRecord

/-- addIncomeBrackets(records): sort all incomes ascending, read the
quartile values at the floored fractional indices (undefined when out of
range, which only happens for an empty collection), and label each
record. -/
def addIncomeBrackets (records : List HomeCreditRecord) : List HomeCreditRecord :=
  let incomes := sortAsc (records.map (·.AMT_INCOME_TOTAL))
  let q1 := incomes.get? (jfloorNat ((incomes.length : ℚ) * 0.25))
  let q3 := incomes.get? (jfloorNat ((incomes.length : ℚ) * 0.75))
  records.map (fun r =>
    { r with
      INCOME_BRACKET := some
        (if jle r.AMT_INCOME_TOTAL q1 then "Low"
         else if jge r.AMT_INCOME_TOTAL q3 then "High"
         else "Mid") })

/-- Number(x?.toFixed(d) || 0): 0 when x is null, otherwise x rounded to
d decimals (toFixed never yields the empty string, so the || fallback
only fires on null/undefined). -/
def optFix (d : ℕ) (x : Option ℚ) : ℚ :=
  match x with
  | none => 0
  | some v => toFixedQ d v

/-- Object.keys(record).length: the 19 raw fields plus every derived
field actually present on the record. -/
def recordKeyCount (r : HomeCreditRecord) : ℕ :=
  19 + (if r.AGE_YEARS.isSome then 1 else 0) + (if r.EMPLOYMENT_YEARS.isSome then 1 else 0) +
    (if r.DTI.isSome then 1 else 0) + (if r.LOAN_TO_INCOME.isSome then 1 else 0) +
    (if r.ANNUITY_TO_CREDIT.isSome then 1 else 0) + (if r.INCOME_BRACKET.isSome then 1 else 0)

/-- The named numeric summary produced by calculateKPIs for a non-empty
collection. -/
structure KPISummary where
  totalApplicants : ℕ
  defaultRate : ℚ
  repaidRate : ℚ
  totalFeatures : ℕ
  numericalFeatures : ℕ
  categoricalFeatures : ℕ
  medianAge : ℚ
  medianIncome : ℚ
  avgCredit : ℚ
  totalDefaults : ℕ
  avgIncomeDefaulters : ℚ
  avgIncomeNonDefaulters : ℚ
  incomeGap : ℚ
  malePercentage : ℚ
  femalePercentage : ℚ
  withChildrenPercentage : ℚ
  avgFamilySize : ℚ
  avgIncome : ℚ
  avgAnnuity : ℚ
  avgDTI : ℚ
  avgLTI : ℚ
  highCreditPercentage : ℚ
deriving DecidableEq

set_option maxHeartbeats 1600000 in
/-- calculateKPIs(data): the source returns the empty object {} — a
summary with no fields at all — for an empty collection, modelled as
none; otherwise every metric is computed from the collection. -/
def calculateKPIs (data : List HomeCreditRecord) : Option KPISummary :=
  match data with
  | [] => none
  | r0 :: rest =>
    let all := r0 :: rest
    let totalApplicants := all.length
    let totalDefaults := (all.filter (fun r => decide (r.TARGET = 1))).length
    let defaultRate : ℚ := ((totalDefaults : ℚ) / (totalApplicants : ℚ)) * 100
    let repaidRate : ℚ := 100 - defaultRate
    let ages := (all.filter (fun r => jtruthy r.AGE_YEARS)).map (fun r => r.AGE_YEARS.getD 0)
    let incomes := all.map (·.AMT_INCOME_TOTAL)
    let credits := all.map (·.AMT_CREDIT)
    let annuities :=
      (all.filter (fun r => decide (r.AMT_ANNUITY ≠ 0))).map (·.AMT_ANNUITY)
    let medianAge := median ages
    let medianIncome := median incomes
    let avgCredit := mean credits
    let avgAnnuity := mean annuities
    let totalFeatures := recordKeyCount r0
    let numericalFeatures := 6
    let categoricalFeatures := totalFeatures - numericalFeatures
    let dtiValues :=
      (all.filter (fun r => jtruthy r.DTI && decide (0 < r.DTI.getD 0))).map (fun r => r.DTI.getD 0)
    let ltiValues :=
      (all.filter (fun r => jtruthy r.LOAN_TO_INCOME && decide (0 < r.LOAN_TO_INCOME.getD 0))).map
        (fun r => r.LOAN_TO_INCOME.getD 0)
    let avgDTI := mean dtiValues
    let avgLTI := mean ltiValues
    let maleCount := (all.filter (fun r => decide (r.CODE_GENDER = "M"))).length
    let femaleCount := (all.filter (fun r => decide (r.CODE_GENDER = "F"))).length
    let withChildrenCount := (all.filter (fun r => decide (0 < r.CNT_CHILDREN))).length
    let defaulterIncomes :=
      (all.filter (fun r => decide (r.TARGET = 1))).map (·.AMT_INCOME_TOTAL)
    let nonDefaulterIncomes :=
      (all.filter (fun r => decide (r.TARGET = 0))).map (·.AMT_INCOME_TOTAL)
    let avgIncomeDefaulters := mean defaulterIncomes
    let avgIncomeNonDefaulters := mean nonDefaulterIncomes
    some
      { totalApplicants := totalApplicants
        defaultRate := toFixedQ 2 defaultRate
        repaidRate := toFixedQ 2 repaidRate
        totalFeatures := totalFeatures
        numericalFeatures := numericalFeatures
        categoricalFeatures := categoricalFeatures
        medianAge := optFix 1 medianAge
        medianIncome := optFix 0 medianIncome
        avgCredit := optFix 0 avgCredit
        totalDefaults := totalDefaults
        avgIncomeDefaulters := optFix 0 avgIncomeDefaulters
        avgIncomeNonDefaulters := optFix 0 avgIncomeNonDefaulters
        -- a null mean coerces to 0 inside the JavaScript subtraction
        incomeGap := toFixedQ 0 (avgIncomeNonDefaulters.getD 0 - avgIncomeDefaulters.getD 0)
        malePercentage := toFixedQ 1 (((maleCount : ℚ) / (totalApplicants : ℚ)) * 100)
        femalePercentage := toFixedQ 1 (((femaleCount : ℚ) / (totalApplicants : ℚ)) * 100)
        withChildrenPercentage :=
          toFixedQ 1 (((withChildrenCount : ℚ) / (totalApplicants : ℚ)) * 100)
        avgFamilySize := optFix 1 (mean (all.map (fun r => (r.CNT_FAM_MEMBERS : ℚ))))
        avgIncome := optFix 0 (mean incomes)
        avgAnnuity := optFix 0 avgAnnuity
        avgDTI := optFix 3 avgDTI
        avgLTI := optFix 2 avgLTI
        highCreditPercentage :=
          toFixedQ 1
            ((((all.filter (fun r => decide (1000000 < r.AMT_CREDIT))).length : ℚ) /
                (totalApplicants : ℚ)) * 100) }

/-- One histogram bin of createBins: the half-open numeric boundaries,
the two rounded endpoints of the range label, and the membership count. -/
structure HistBin where
  lo : ℚ
  hi : ℚ
  labelLo : ℤ
  labelHi : ℤ
  count : ℕ
deriving DecidableEq

/-- Total membership count across a list of bins. -/
def binsTotal (bs : List HistBin) : ℕ := (bs.map (·.count)).sum

/-- createBins(values, numBins): equal-width bins between min and max of
the values, the bin index clamped at numBins - 1.  When binSize = 0 (all
values identical, or numBins = 0) the JavaScript code computes the bin
index floor(0/0) = NaN (resp. min(0, -1) = -1) and throws a TypeError
dereferencing bins[NaN]; that crash is modelled as none, as is the empty
collection (where Math.min() of no arguments is Infinity). -/
def createBins (values : List ℚ) (numBins : ℕ) : Option (List HistBin) :=
  match values with
  | [] => none
  | v :: vs =>
    let mn := vs.foldl min v
    let mx := vs.foldl max v
    let binSize := (mx - mn) / (numBins : ℚ)
    if binSize = 0 then none
    else
      let bins0 := (List.range numBins).map (fun i =>
        { lo := mn + (i : ℚ) * binSize
          hi := mn + ((i : ℚ) + 1) * binSize
          labelLo := jround (mn + (i : ℚ) * binSize)
          labelHi := jround (mn + ((i : ℚ) + 1) * binSize)
          count := 0 : HistBin })
      some ((v :: vs).foldl (fun bins value =>
        let binIndex := min (jfloorNat ((value - mn) / binSize)) (numBins - 1)
        -- binIndex < bins.length always holds here, so the none branch
        -- (where JavaScript would throw) is unreachable
        match bins.get? binIndex with
        | some b => bins.set binIndex { b with count := b.count + 1 }
        | none => bins) bins0)

/-- The (x, y) samples of calculatePearsonCorrelation: the records where
both fields are present (non-null), coerced to numbers; the two dynamic
string-keyed field reads are modelled as accessor functions. -/
def validPairs (data : List HomeCreditRecord) (f1 f2 : HomeCreditRecord → Option ℚ) :
    List (ℚ × ℚ) :=
  (data.filter (fun r => (f1 r).isSome && (f2 r).isSome)).map
    (fun r => ((f1 r).getD 0, (f2 r).getD 0))

/-- calculatePearsonCorrelation(data, field1, field2): 0 for fewer than 2
valid pairs, otherwise the product-moment formula, with 0 when the
denominator is 0.  Math.sqrt is an external function of the host,
modelled by the parameter msqrt. -/
def calculatePearsonCorrelation (msqrt : ℚ → ℚ) (data : List HomeCreditRecord)
    (f1 f2 : HomeCreditRecord → Option ℚ) : ℚ :=
  let pairs := validPairs data f1 f2
  if pairs.length < 2 then 0
  else
    let n : ℚ := (pairs.length : ℚ)
    let sumX := (pairs.map (fun p => p.1)).sum
    let sumY := (pairs.map (fun p => p.2)).sum
    let sumXY := (pairs.map (fun p => p.1 * p.2)).sum
    let sumXX := (pairs.map (fun p => p.1 * p.1)).sum
    let sumYY := (pairs.map (fun p => p.2 * p.2)).sum
    let numerator := n * sumXY - sumX * sumY
    let denominator := msqrt ((n * sumXX - sumX * sumX) * (n * sumYY - sumY * sumY))
    if denominator = 0 then 0 else numerator / denominator

/-- getDefaultRiskByProfile(age, income, education, employment): the 8%
baseline multiplied in place by the age, income, education and employment
adjustments, capped at 0.5. -/
def getDefaultRiskByProfile (age income : ℚ) (education : String) (employment : ℚ) : ℚ :=
  let b0 : ℚ := 0.08
  let b1 := if age < 25 then b0 * 1.5 else if age < 35 then b0 * 1.2
    else if 65 < age then b0 * 1.3 else b0
  let b2 := if income < 100000 then b1 * 2.0 else if income < 200000 then b1 * 1.4
    else if 500000 < income then b1 * 0.6 else b1
  let b3 := if education = "Higher education" ∨ education = "Academic degree" then b2 * 0.7
    else if education = "Lower secondary" then b2 * 1.4 else b2
  let b4 := if employment < 1 then b3 * 1.8 else if 10 < employment then b3 * 0.8 else b3
  min 0.5 b4

/-- Modelled from the spec: the independent age adjustment factor
(elevated below 25 and above 65, reduced mid-range relative to the young
brackets). -/
def specAgeFactor (age : ℚ) : ℚ :=
  if age < 25 then 1.5 else if age < 35 then 1.2 else if 65 < age then 1.3 else 1

/-- Modelled from the spec: the independent income adjustment factor
(penalty below 100k/200k, discount above 500k). -/
def specIncomeFactor (income : ℚ) : ℚ :=
  if income < 100000 then 2.0 else if income < 200000 then 1.4
  else if 500000 < income then 0.6 else 1

/-- Modelled from the spec: the independent education adjustment factor
(discount for higher/academic degrees, penalty for lower secondary). -/
def specEducationFactor (education : String) : ℚ :=
  if education = "Higher education" ∨ education = "Academic degree" then 0.7
  else if education = "Lower secondary" then 1.4 else 1

/-- Modelled from the spec: the independent employment-tenure adjustment
factor (penalty under 1 year, discount over 10 years). -/
def specEmploymentFactor (employment : ℚ) : ℚ :=
  if employment < 1 then 1.8 else if 10 < employment then 0.8 else 1

/-- The reference enumerations used by the synthetic generator. -/
def educationTypes : List String :=
  ["Secondary / secondary special", "Higher education", "Incomplete higher",
   "Lower secondary", "Academic degree"]

/-- Family-status enumeration of the generator. -/
def familyStatusTypes : List String :=
  ["Married", "Single / not married", "Civil marriage", "Separated", "Widow"]

/-- Housing-type enumeration of the generator. -/
def housingTypes : List String :=
  ["House / apartment", "With parents", "Municipal apartment", "Rented apartment",
   "Office apartment", "Co-op apartment"]

/-- Occupation enumeration of the generator. -/
def occupationTypes : List String :=
  ["Laborers", "Core staff", "Sales staff", "Managers", "Drivers",
   "High skill tech staff", "Accountants", "Medicine staff", "Security staff",
   "Cooking staff", "Cleaning staff", "Private service staff", "Low-skill Laborers",
   "Waiters/barmen staff", "Secretaries", "Realty agents", "HR staff", "IT staff"]

/-- Contract-type enumeration of the generator. -/
def contractTypes : List String := ["Cash loans", "Revolving loans"]

/-- The injected randomness source: a seeded stream of draws together
with the position of the next draw.  Math.random() reads the stream at
the current position and advances it; the spec requires the "fixed seed"
determinism property only for such an injected seeded source. -/
structure Rng where
  stream : ℕ → ℚ
  idx : ℕ

/-- One Math.random() call on the injected source. -/
def mrandom : StateM Rng ℚ :=
  fun g => (g.stream g.idx, { g with idx := g.idx + 1 })

/-- The rejection-sampling loop body of randomAge, with explicit fuel.
Each iteration draws twice and lands in [30, 54) whenever the draws lie
in [0, 1), so for a well-formed randomness source the loop body runs
exactly once (randomAge_first_draw_in_range below); the fuel-exhausted
value is unreachable then. -/
def randomAgeGo : ℕ → StateM Rng ℤ
  | 0 => pure 30
  | fuel + 1 => do
    let r1 ← mrandom
    let r2 ← mrandom
    let age : ℚ := 42 + 12 * (r1 + r2 - 1)
    if age < 18 ∨ 80 < age then randomAgeGo fuel
    else pure (jround age)

/-- randomAge(): normal-approximate age rejection-sampled into [18, 80],
rounded on exit. -/
def randomAge : StateM Rng ℤ := randomAgeGo 1000000

/-- randomIncome(): the skewed income draw; Math.exp is an external
deterministic function of the host, modelled by the parameter mexp. -/
def randomIncome (mexp : ℚ → ℚ) : StateM Rng ℚ := do
  let r1 ← mrandom
  let r2 ← mrandom
  let r3 ← mrandom
  let normal := r1 * r2 * r3
  let r4 ← mrandom
  return mexp (11.5 + 0.8 * (normal - 0.5) * 6) * (0.5 + r4 * 0.5)

/-- randomCredit(income): income times a multiplier in [2, 8] with
jitter. -/
def randomCredit (income : ℚ) : StateM Rng ℚ := do
  let r1 ← mrandom
  let multiplier := 2 + r1 * 6
  let r2 ← mrandom
  return income * multiplier * (0.8 + r2 * 0.4)

/-- The body of one iteration of the generation loop, drawing in the
source's evaluation order. -/
def genRecord (mexp : ℚ → ℚ) (i : ℕ) : StateM Rng HomeCreditRecord := do
  let age ← randomAge
  let income ← randomIncome mexp
  let re ← mrandom
  let education := educationTypes.getD (jfloorNat (re * (educationTypes.length : ℚ))) ""
  let rt ← mrandom
  let employment ← if (0.1 : ℚ) < rt then do
      let r ← mrandom
      pure (r * 25)
    else pure (-1 : ℚ)
  let defaultRisk := getDefaultRiskByProfile (age : ℚ) income education employment
  let rtg ← mrandom
  let target : ℕ := if rtg < defaultRisk then 1 else 0
  let credit ← randomCredit income
  let ra ← mrandom
  let annuity := credit * (0.05 + ra * 0.15) / 12
  let rg1 ← mrandom
  let gender ← if (0.65 : ℚ) < rg1 then pure "F"
    else do
      let rg2 ← mrandom
      pure (if (0.95 : ℚ) < rg2 then "XNA" else "M")
  let rfs ← mrandom
  let familyStatus := familyStatusTypes.getD (jfloorNat (rfs * (familyStatusTypes.length : ℚ))) ""
  let rc1 ← mrandom
  let children ← if (0.4 : ℚ) < rc1 then pure (0 : ℕ)
    else do
      let rc2 ← mrandom
      pure (jfloorNat (rc2 * 4))
  let rfm ← mrandom
  let famMembers := 1 + jfloorNat (rfm * 5)
  let ro1 ← mrandom
  let occupation ← if (0.05 : ℚ) < ro1 then do
      let ro2 ← mrandom
      pure (occupationTypes.getD (jfloorNat (ro2 * (occupationTypes.length : ℚ))) "")
    else pure ""
  let rh ← mrandom
  let housing := housingTypes.getD (jfloorNat (rh * (housingTypes.length : ℚ))) ""
  let rgp ← mrandom
  let goodsPrice := jround (credit * (0.8 + rgp * 0.4))
  let rct ← mrandom
  let contract := contractTypes.getD (jfloorNat (rct * (contractTypes.length : ℚ))) ""
  let rrr ← mrandom
  let regionRating := 1 + jfloorNat (rrr * 3)
  let rcar ← mrandom
  let ownCar := if (0.5 : ℚ) < rcar then "Y" else "N"
  let rre ← mrandom
  let ownRealty := if (0.3 : ℚ) < rre then "Y" else "N"
  pure
    { SK_ID_CURR := 100000 + i
      TARGET := target
      CODE_GENDER := gender
      DAYS_BIRTH := -(jround ((age : ℚ) * 365.25))
      DAYS_EMPLOYED := if 0 < employment then -(jround (employment * 365.25)) else 365243
      NAME_FAMILY_STATUS := familyStatus
      CNT_CHILDREN := children
      CNT_FAM_MEMBERS := famMembers
      NAME_EDUCATION_TYPE := education
      OCCUPATION_TYPE := occupation
      NAME_HOUSING_TYPE := housing
      AMT_INCOME_TOTAL := (jround income : ℚ)
      AMT_CREDIT := (jround credit : ℚ)
      AMT_ANNUITY := (jround annuity : ℚ)
      AMT_GOODS_PRICE := (goodsPrice : ℚ)
      NAME_CONTRACT_TYPE := contract
      REGION_RATING_CLIENT := regionRating
      FLAG_OWN_CAR := ownCar
      FLAG_OWN_REALTY := ownRealty }

/-- The generation loop: n records starting at index i, in order. -/
def genRecords (mexp : ℚ → ℚ) : ℕ → ℕ → StateM Rng (List HomeCreditRecord)
  | 0, _ => pure []
  | n + 1, i => do
    let r ← genRecord mexp i
    let rest ← genRecords mexp n (i + 1)
    pure (r :: rest)

/-- generateSyntheticData(numRecords) run against an injected randomness
source. -/
def generateSyntheticData (mexp : ℚ → ℚ) (numRecords : ℕ) (g : Rng) :
    List HomeCreditRecord :=
  ((genRecords mexp numRecords 0).run g).1

/-- generateCompleteDataset(numRecords): generate, derive, bracket. -/
def generateCompleteDataset (mexp : ℚ → ℚ) (numRecords : ℕ) (g : Rng) :
    List HomeCreditRecord :=
  addIncomeBrackets (preprocessData (generateSyntheticData mexp numRecords g))

/-- Equality of all nineteen raw fields of two records. -/
def rawFieldsEq (a b : HomeCreditRecord) : Prop :=
  a.SK_ID_CURR = b.SK_ID_CURR ∧ a.TARGET = b.TARGET ∧ a.CODE_GENDER = b.CODE_GENDER ∧
    a.DAYS_BIRTH = b.DAYS_BIRTH ∧ a.DAYS_EMPLOYED = b.DAYS_EMPLOYED ∧
    a.NAME_FAMILY_STATUS = b.NAME_FAMILY_STATUS ∧ a.CNT_CHILDREN = b.CNT_CHILDREN ∧
    a.CNT_FAM_MEMBERS = b.CNT_FAM_MEMBERS ∧ a.NAME_EDUCATION_TYPE = b.NAME_EDUCATION_TYPE ∧
    a.OCCUPATION_TYPE = b.OCCUPATION_TYPE ∧ a.NAME_HOUSING_TYPE = b.NAME_HOUSING_TYPE ∧
    a.AMT_INCOME_TOTAL = b.AMT_INCOME_TOTAL ∧ a.AMT_CREDIT = b.AMT_CREDIT ∧
    a.AMT_ANNUITY = b.AMT_ANNUITY ∧ a.AMT_GOODS_PRICE = b.AMT_GOODS_PRICE ∧
    a.NAME_CONTRACT_TYPE = b.NAME_CONTRACT_TYPE ∧
    a.REGION_RATING_CLIENT = b.REGION_RATING_CLIENT ∧ a.FLAG_OWN_CAR = b.FLAG_OWN_CAR ∧
    a.FLAG_OWN_REALTY = b.FLAG_OWN_REALTY

/-- A concrete preprocessed record used as a test fixture. -/
def sampleRecord : HomeCreditRecord :=
  { SK_ID_CURR := 100001
    TARGET := 0
    CODE_GENDER := "M"
    DAYS_BIRTH := -12000
    DAYS_EMPLOYED := -2000
    NAME_FAMILY_STATUS := "Married"
    CNT_CHILDREN := 0
    CNT_FAM_MEMBERS := 2
    NAME_EDUCATION_TYPE := "Higher education"
    OCCUPATION_TYPE := "Laborers"
    NAME_HOUSING_TYPE := "House / apartment"
    AMT_INCOME_TOTAL := 150000
    AMT_CREDIT := 400000
    AMT_ANNUITY := 20000
    AMT_GOODS_PRICE := 380000
    NAME_CONTRACT_TYPE := "Cash loans"
    REGION_RATING_CLIENT := 2
    FLAG_OWN_CAR := "Y"
    FLAG_OWN_REALTY := "N"
    AGE_YEARS := some 32.9
    EMPLOYMENT_YEARS := some 5.5
    DTI := some 0.133
    LOAN_TO_INCOME := some 2.67
    ANNUITY_TO_CREDIT := some 0.05
    INCOME_BRACKET := some "Mid" }

/-- The sample record with a given income, used to exercise the quartile
bracketing. -/
def mkIncomeRecord (inc : ℚ) : HomeCreditRecord :=
  { sampleRecord with AMT_INCOME_TOTAL := inc }

/-- The sample record with no derived age and zero employment years,
used to exercise the missing-value leniency of the filter. -/
def missingAgeRecord : HomeCreditRecord :=
  { sampleRecord with AGE_YEARS := none, EMPLOYMENT_YEARS := some 0 }

/-- A fully unconstrained filter specification. -/
def unconstrainedFilter : FilterState :=
  { gender := []
    education := []
    familyStatus := []
    housingType := []
    ageRange := (0, 100)
    incomeBracket := "all"
    employmentRange := (0, 50) }

/-- A filter specification with narrow age and employment windows, used
to show the leniency predicates pass regardless of the bounds. -/
def narrowFilter : FilterState :=
  { unconstrainedFilter with ageRange := (1000, 2000), employmentRange := (300, 400) }

/-- A constant randomness source used as a concrete seed in witnesses. -/
def halfRng : Rng := { stream := fun _ => 1/2, idx := 0 }

/- ------------------------------------------------------------------ -/
/- Theorems                                                           -/
/- ------------------------------------------------------------------ -/

/-- Claim C1 (counterexample): on the empty collection calculateKPIs
returns the empty object, in which every named metric is absent — no
metric is present with a zero/placeholder value, contrary to the claim. -/
theorem calculateKPIs_empty_object : calculateKPIs [] = none := rfl

/-- Claim C1 (amended): calculateKPIs never throws; it returns the empty
summary — with every named metric absent — exactly for an empty input
collection, and a summary with every metric defined for any non-empty
collection. -/
theorem calculateKPIs_none_iff_empty (data : List HomeCreditRecord) :
    calculateKPIs data = none ↔ data = [] := by
  cases data <;> simp [calculateKPIs]

/-- Claim C7: mean and median return the null sentinel exactly on empty
input; median of [1,2,3,4] is 2.5 and median of [1,2,3] is 2. -/
theorem mean_median_sentinel_spec (vs : List ℚ) :
    (mean vs = none ↔ vs = []) ∧ (median vs = none ↔ vs = []) ∧
      median [1, 2, 3, 4] = some (5/2) ∧ median [1, 2, 3] = some 2 := by
  refine ⟨?_, ?_,
    by norm_num [median, sortAsc, List.insertionSort, List.orderedInsert],
    by norm_num [median, sortAsc, List.insertionSort, List.orderedInsert]⟩
  · cases vs <;> simp [mean]
  · cases vs with
    | nil => simp [median]
    | cons h t =>
      simp only [median]
      constructor
      · intro hc
        split at hc
        · simp_all
        · split at hc <;> simp_all
      · intro hc
        exact absurd hc (List.cons_ne_nil h t)

set_option maxHeartbeats 1000000 in
/-- Claim C6: the generator's default-risk score is the 8% baseline
multiplied by the independent age, income, education and employment
adjustment factors, with the composed score clipped to at most 0.5. -/
theorem getDefaultRiskByProfile_factored (age income : ℚ) (education : String)
    (employment : ℚ) :
    getDefaultRiskByProfile age income education employment =
      min 0.5 (0.08 * specAgeFactor age * specIncomeFactor income *
        specEducationFactor education * specEmploymentFactor employment) := by
  unfold getDefaultRiskByProfile specAgeFactor specIncomeFactor specEducationFactor
    specEmploymentFactor
  split_ifs <;> norm_num

/-- Claim C9: the age-range predicate of applyFilters passes every record
whose derived age is absent, and the employment-range predicate passes
every record whose employment years are zero or absent, for every filter
specification. -/
theorem filter_missing_value_leniency (f : FilterState) (r : HomeCreditRecord) :
    (r.AGE_YEARS = none → agePass f r = true) ∧
      ((r.EMPLOYMENT_YEARS = none ∨ r.EMPLOYMENT_YEARS = some 0) →
        employmentPass f r = true) := by
  constructor
  · intro h
    simp [agePass, jtruthy, h]
  · intro h
    rcases h with h | h <;> simp [employmentPass, jtruthy, h]

/-- Witness for claim C9: a concrete record with no derived age and zero
employment years passes both range predicates of a filter whose windows
exclude every ordinary value. -/
theorem filter_missing_value_leniency_witness :
    agePass narrowFilter missingAgeRecord = true ∧
      employmentPass narrowFilter missingAgeRecord = true :=
  ⟨(filter_missing_value_leniency narrowFilter missingAgeRecord).1 rfl,
    (filter_missing_value_leniency narrowFilter missingAgeRecord).2 (Or.inr rfl)⟩

/-- Claim C3: re-running the full pipeline — synthetic generation, then
feature derivation, then income bracketing — against the same injected
randomness source (the seed) and the same record count yields identical
record sequences, and in particular identical target sequences; the only
impurity of the pipeline is the explicit randomness source. -/
theorem generateCompleteDataset_deterministic (mexp : ℚ → ℚ) (numRecords : ℕ) (g : Rng)
    (run1 run2 : List HomeCreditRecord)
    (h1 : run1 = generateCompleteDataset mexp numRecords g)
    (h2 : run2 = generateCompleteDataset mexp numRecords g) :
    run1 = run2 ∧ run1.map (·.TARGET) = run2.map (·.TARGET) := by
  subst h1
  subst h2
  exact ⟨rfl, rfl⟩

/-- Witness for claim C3: two runs of the pipeline with the concrete
constant randomness source and three records agree record by record and
target by target. -/
theorem generateCompleteDataset_deterministic_witness :
    generateCompleteDataset (fun q => 1 + q) 3 halfRng =
        generateCompleteDataset (fun q => 1 + q) 3 halfRng ∧
      (generateCompleteDataset (fun q => 1 + q) 3 halfRng).map (·.TARGET) =
        (generateCompleteDataset (fun q => 1 + q) 3 halfRng).map (·.TARGET) :=
  generateCompleteDataset_deterministic (fun q => 1 + q) 3 halfRng _ _ rfl rfl

/-- Claim C4: a filter specification with every category list empty, the
income bracket set to "all", and age and employment windows covering
every value present on the records, makes applyFilters the identity. -/
theorem applyFilters_unconstrained_identity (f : FilterState) (data : List HomeCreditRecord)
    (hg : f.gender = []) (he : f.education = []) (hfs : f.familyStatus = [])
    (hh : f.housingType = []) (hb : f.incomeBracket = "all")
    (ha : ∀ r ∈ data, r.AGE_YEARS.all
      (fun a => decide (f.ageRange.1 ≤ a ∧ a ≤ f.ageRange.2)) = true)
    (hemp : ∀ r ∈ data, r.EMPLOYMENT_YEARS.all
      (fun e => decide (f.employmentRange.1 ≤ e ∧ e ≤ f.employmentRange.2)) = true) :
    applyFilters data f = data := by
  unfold applyFilters
  rw [List.filter_eq_self]
  intro r hr
  have hA := ha r hr
  have hE := hemp r hr
  have hpassA : agePass f r = true := by
    unfold agePass
    cases hAY : r.AGE_YEARS with
    | none => simp [jtruthy]
    | some a =>
      rw [hAY] at hA
      simp only [Option.all_some, decide_eq_true_eq] at hA
      have h1 : ¬(a < f.ageRange.1) := not_lt.mpr hA.1
      have h2 : ¬(f.ageRange.2 < a) := not_lt.mpr hA.2
      simp [jtruthy, h1, h2]
  have hpassE : employmentPass f r = true := by
    unfold employmentPass
    cases hEY : r.EMPLOYMENT_YEARS with
    | none => simp [jtruthy]
    | some e =>
      rw [hEY] at hE
      simp only [Option.all_some, decide_eq_true_eq] at hE
      have h1 : ¬(e < f.employmentRange.1) := not_lt.mpr hE.1
      have h2 : ¬(f.employmentRange.2 < e) := not_lt.mpr hE.2
      simp [jtruthy, h1, h2]
  simp [recordPass, genderPass, educationPass, familyStatusPass, housingTypePass,
    incomeBracketPass, hg, he, hfs, hh, hb, hpassA, hpassE]

/-- Witness for claim C4: on a concrete two-record collection, the
concrete unconstrained filter specification returns the input
unchanged. -/
theorem applyFilters_unconstrained_identity_witness :
    applyFilters [sampleRecord, missingAgeRecord] unconstrainedFilter =
      [sampleRecord, missingAgeRecord] :=
  applyFilters_unconstrained_identity unconstrainedFilter [sampleRecord, missingAgeRecord]
    rfl rfl rfl rfl rfl
    (by norm_num [sampleRecord, missingAgeRecord, unconstrainedFilter])
    (by norm_num [sampleRecord, missingAgeRecord, unconstrainedFilter])

/-- Claim C2 (failing input): on an all-identical value collection the
binning crashes — binSize is 0, the JavaScript bin index is floor(0/0) =
NaN, and bins[NaN].count++ throws — modelled as none, so no value lands
in any bin; on a non-degenerate collection the total count across all
bins does equal the input size, the maximum element included. -/
theorem createBins_degenerate_crash :
    createBins [7, 7, 7] 15 = none ∧
      (createBins [1, 2, 3, 4] 2).map binsTotal = some 4 := by
  constructor
  · norm_num [createBins]
  · norm_num [createBins, binsTotal, jfloorNat, jround, List.range_succ]

/-- floor(n * 0.25) over ℚ is natural division by 4. -/
theorem jfloorNat_mul_quarter (n : ℕ) : jfloorNat ((n : ℚ) * 0.25) = n / 4 := by
  unfold jfloorNat
  rw [Int.floor_toNat]
  have h : (n : ℚ) * 0.25 = (n : ℚ) / ((4 : ℕ) : ℚ) := by push_cast; ring
  rw [h, Nat.floor_div_eq_div]

/-- floor(n * 0.75) over ℚ is natural division of 3n by 4. -/
theorem jfloorNat_mul_three_quarter (n : ℕ) : jfloorNat ((n : ℚ) * 0.75) = 3 * n / 4 := by
  unfold jfloorNat
  rw [Int.floor_toNat]
  have h : (n : ℚ) * 0.75 = ((3 * n : ℕ) : ℚ) / ((4 : ℕ) : ℚ) := by push_cast; ring
  rw [h, Nat.floor_div_eq_div]

/-- Claim C5: income bracketing works over the whole supplied collection:
it sorts the incomes ascending, takes Q1 and Q3 at the floored indices
n/4 and 3n/4 of the sorted array (index-based, not interpolated), and
labels each record Low when its income is at most Q1, High when at least
Q3, and Mid otherwise. -/
theorem addIncomeBrackets_quartile_spec (rs : List HomeCreditRecord) (h : rs ≠ []) :
    addIncomeBrackets rs = rs.map (fun r =>
      { r with INCOME_BRACKET := some (
              if r.AMT_INCOME_TOTAL ≤
                (sortAsc (rs.map (·.AMT_INCOME_TOTAL))).getD (rs.length / 4) 0 then "Low"
              else if (sortAsc (rs.map (·.AMT_INCOME_TOTAL))).getD (3 * rs.length / 4) 0 ≤
                r.AMT_INCOME_TOTAL then "High"
              else "Mid") }) := by
  have hlen : (sortAsc (rs.map (·.AMT_INCOME_TOTAL))).length = rs.length := by
    simp [sortAsc, List.length_insertionSort]
  have hpos : 0 < rs.length := List.length_pos.mpr h
  have hi1 : rs.length / 4 < (sortAsc (rs.map (·.AMT_INCOME_TOTAL))).length := by
    rw [hlen]
    exact Nat.div_lt_self hpos (by norm_num)
  have hi3 : 3 * rs.length / 4 < (sortAsc (rs.map (·.AMT_INCOME_TOTAL))).length := by
    rw [hlen]
    omega
  have hq1 : (sortAsc (rs.map (·.AMT_INCOME_TOTAL))).get? (rs.length / 4) =
      some ((sortAsc (rs.map (·.AMT_INCOME_TOTAL))).getD (rs.length / 4) 0) := by
    rw [List.get?_eq_get hi1, List.getD_eq_get _ _ hi1]
  have hq3 : (sortAsc (rs.map (·.AMT_INCOME_TOTAL))).get? (3 * rs.length / 4) =
      some ((sortAsc (rs.map (·.AMT_INCOME_TOTAL))).getD (3 * rs.length / 4) 0) := by
    rw [List.get?_eq_get hi3, List.getD_eq_get _ _ hi3]
  simp only [addIncomeBrackets, hlen, jfloorNat_mul_quarter, jfloorNat_mul_three_quarter,
    hq1, hq3, jle, jge, decide_eq_true_eq]

/-- Witness for claim C5: on a concrete four-record collection with
incomes 30, 10, 40, 20, the quartile values are Q1 = sorted[1] = 20 and
Q3 = sorted[3] = 40, and the records get labelled Mid, Low, High, Low. -/
theorem addIncomeBrackets_quartile_spec_witness :
    addIncomeBrackets
        [mkIncomeRecord 30, mkIncomeRecord 10, mkIncomeRecord 40, mkIncomeRecord 20] =
      [{ mkIncomeRecord 30 with INCOME_BRACKET := some "Mid" },
        { mkIncomeRecord 10 with INCOME_BRACKET := some "Low" },
        { mkIncomeRecord 40 with INCOME_BRACKET := some "High" },
        { mkIncomeRecord 20 with INCOME_BRACKET := some "Low" }] := by
  rw [addIncomeBrackets_quartile_spec _ (by simp)]
  norm_num [sortAsc, List.insertionSort, List.orderedInsert, mkIncomeRecord, sampleRecord]

/-- Claim C8: the correlation is computed over the pairs where both
fields are present, and is 0 whenever fewer than 2 valid pairs exist or
either variable has zero variance (the denominator is 0), for every
genuine square-root function of the host (one vanishing exactly at 0 on
nonnegative inputs); no NaN or undefined value can escape, since every
branch yields a rational. -/
theorem pearson_guard_spec (msqrt : ℚ → ℚ)
    (hs : ∀ q, 0 ≤ q → (msqrt q = 0 ↔ q = 0))
    (data : List HomeCreditRecord) (f1 f2 : HomeCreditRecord → Option ℚ) :
    ((validPairs data f1 f2).length < 2 →
        calculatePearsonCorrelation msqrt data f1 f2 = 0) ∧
      (∀ c : ℚ, (∀ p ∈ validPairs data f1 f2, p.1 = c) →
        calculatePearsonCorrelation msqrt data f1 f2 = 0) ∧
      (∀ c : ℚ, (∀ p ∈ validPairs data f1 f2, p.2 = c) →
        calculatePearsonCorrelation msqrt data f1 f2 = 0) := by
  refine ⟨?_, ?_, ?_⟩
  · intro hlen
    simp only [calculatePearsonCorrelation]
    rw [if_pos hlen]
  · intro c hc
    by_cases hlen : (validPairs data f1 f2).length < 2
    · simp only [calculatePearsonCorrelation]
      rw [if_pos hlen]
    · simp only [calculatePearsonCorrelation]
      rw [if_neg hlen]
      have hmap : (validPairs data f1 f2).map (fun p => p.1) =
          List.replicate (validPairs data f1 f2).length c := by
        rw [List.eq_replicate]
        refine ⟨List.length_map _ _, ?_⟩
        intro b hb
        obtain ⟨p, hp, rfl⟩ := List.mem_map.mp hb
        exact hc p hp
      have hmap2 : (validPairs data f1 f2).map (fun p => p.1 * p.1) =
          List.replicate (validPairs data f1 f2).length (c * c) := by
        rw [List.eq_replicate]
        refine ⟨List.length_map _ _, ?_⟩
        intro b hb
        obtain ⟨p, hp, rfl⟩ := List.mem_map.mp hb
        rw [hc p hp]
      rw [hmap, hmap2, List.sum_replicate, List.sum_replicate]
      have hfac : ((validPairs data f1 f2).length : ℚ) *
            ((validPairs data f1 f2).length • (c * c)) -
            ((validPairs data f1 f2).length • c) * ((validPairs data f1 f2).length • c) = 0 := by
        simp only [nsmul_eq_mul]
        ring
      rw [hfac, zero_mul, (hs 0 le_rfl).mpr rfl, if_pos rfl]
  · intro c hc
    by_cases hlen : (validPairs data f1 f2).length < 2
    · simp only [calculatePearsonCorrelation]
      rw [if_pos hlen]
    · simp only [calculatePearsonCorrelation]
      rw [if_neg hlen]
      have hmap : (validPairs data f1 f2).map (fun p => p.2) =
          List.replicate (validPairs data f1 f2).length c := by
        rw [List.eq_replicate]
        refine ⟨List.length_map _ _, ?_⟩
        intro b hb
        obtain ⟨p, hp, rfl⟩ := List.mem_map.mp hb
        exact hc p hp
      have hmap2 : (validPairs data f1 f2).map (fun p => p.2 * p.2) =
          List.replicate (validPairs data f1 f2).length (c * c) := by
        rw [List.eq_replicate]
        refine ⟨List.length_map _ _, ?_⟩
        intro b hb
        obtain ⟨p, hp, rfl⟩ := List.mem_map.mp hb
        rw [hc p hp]
      rw [hmap, hmap2, List.sum_replicate, List.sum_replicate]
      have hfac : ((validPairs data f1 f2).length : ℚ) *
            ((validPairs data f1 f2).length • (c * c)) -
            ((validPairs data f1 f2).length • c) * ((validPairs data f1 f2).length • c) = 0 := by
        simp only [nsmul_eq_mul]
        ring
      rw [hfac, mul_zero, (hs 0 le_rfl).mpr rfl, if_pos rfl]

/-- Witness for claim C8: on a single-record collection only one valid
pair exists, and the correlation of income against credit is 0. -/
theorem pearson_guard_spec_witness :
    calculatePearsonCorrelation (fun q => q) [sampleRecord]
        (fun r => some r.AMT_INCOME_TOTAL) (fun r => some r.AMT_CREDIT) = 0 :=
  (pearson_guard_spec (fun q => q)
      (by intro q hq; constructor <;> (intro hq0; exact hq0))
      [sampleRecord] (fun r => some r.AMT_INCOME_TOTAL) (fun r => some r.AMT_CREDIT)).1
    (by norm_num [validPairs])

/-- Claim C10: preprocessData leaves every raw field and the income
bracket of every record unchanged and populates exactly the five derived
numeric fields; addIncomeBrackets leaves every raw field and the five
derived numeric fields unchanged and populates exactly the income
bracket. -/
theorem preprocess_and_bracket_frame (rs : List HomeCreditRecord) :
    List.Forall₂
        (fun r s => rawFieldsEq r s ∧ s.INCOME_BRACKET = r.INCOME_BRACKET ∧
          s.AGE_YEARS.isSome = true ∧ s.EMPLOYMENT_YEARS.isSome = true ∧
          s.DTI.isSome = true ∧ s.LOAN_TO_INCOME.isSome = true ∧
          s.ANNUITY_TO_CREDIT.isSome = true)
        rs (preprocessData rs) ∧
      List.Forall₂
        (fun r s => rawFieldsEq r s ∧ s.AGE_YEARS = r.AGE_YEARS ∧
          s.EMPLOYMENT_YEARS = r.EMPLOYMENT_YEARS ∧ s.DTI = r.DTI ∧
          s.LOAN_TO_INCOME = r.LOAN_TO_INCOME ∧
          s.ANNUITY_TO_CREDIT = r.ANNUITY_TO_CREDIT ∧
          s.INCOME_BRACKET.isSome = true)
        rs (addIncomeBrackets rs) := by
  constructor
  · unfold preprocessData
    rw [List.forall₂_map_right_iff, List.forall₂_same]
    intro r hr
    unfold preprocessRecord rawFieldsEq
    simp
  · unfold addIncomeBrackets
    rw [List.forall₂_map_right_iff, List.forall₂_same]
    intro r hr
    unfold rawFieldsEq
    simp

end CreditRisk
